import Mathlib

set_option maxHeartbeats 1000000

/-! Shallow embedding of the data-analysis engine of the dashboard repository:
`src/utils/dataAnalysis.js`, `src/utils/chartGeneration.js` and
`src/utils/fieldMapping.js`.  Record values are modelled by `JSValue`
(JSON scalars plus the `undefined` of a missing key), JS numbers that can be
`NaN` or infinite by `JSNum`, and each exported function by a Lean function of
the same name. -/

/-- Scalar value of a record field: `undefined` (missing key), `null`, a string,
or a finite number (modelled as a rational; the datasets handled here carry
integers and short decimals, which doubles represent exactly). -/
inductive JSValue where
  | vUndefined
  | vNull
  | vStr (s : String)
  | vNum (q : ℚ)
  deriving DecidableEq, Repr

/-- JS truthiness of a `JSValue` (`undefined`, `null`, `""` and `0` are falsy). -/
def jsTruthy : JSValue → Bool
  | .vUndefined => false
  | .vNull => false
  | .vStr s => if s = "" then false else true
  | .vNum q => if q = 0 then false else true

/-- The "missing" test used by the analyzer's sampling step:
`v !== null && v !== undefined && v !== ""` (negated). -/
def isMissing : JSValue → Bool
  | .vUndefined => true
  | .vNull => true
  | .vStr "" => true
  | _ => false

/-- A record (row): a JS object, modelled as an association list with distinct
keys, in insertion order. -/
abbrev Record := List (String × JSValue)

/-- `row[f]`: the value of field `f`, `undefined` when the key is absent. -/
def getField (row : Record) (f : String) : JSValue :=
  match row.find? (fun p => p.1 == f) with
  | some p => p.2
  | none => .vUndefined

/-- Numeric value of a decimal digit character. -/
def digitVal (c : Char) : Nat := c.toNat - 48

/-- The natural number denoted by a list of decimal digit characters. -/
def natOfDigits (l : List Char) : Nat := l.foldl (fun n c => 10 * n + digitVal c) 0

/-- Rational addition, written through `mkRat` so that concrete runs of the
embedded functions reduce inside the kernel; proved equal to `+` below. -/
def ratAdd (a b : ℚ) : ℚ :=
  mkRat (a.num * (b.den : Int) + b.num * (a.den : Int)) (a.den * b.den)

/-- Rational subtraction through `mkRat`; proved equal to `-` below. -/
def ratSub (a b : ℚ) : ℚ :=
  mkRat (a.num * (b.den : Int) - b.num * (a.den : Int)) (a.den * b.den)

/-- Rational multiplication through `mkRat`; proved equal to `*` below. -/
def ratMul (a b : ℚ) : ℚ := mkRat (a.num * b.num) (a.den * b.den)

/-- Rational division through `mkRat` (zero divisor yields zero, as in
Mathlib); proved equal to `/` below. -/
def ratDiv (a b : ℚ) : ℚ :=
  if 0 ≤ b.num then mkRat (a.num * (b.den : Int)) (a.den * b.num.toNat)
  else mkRat (-(a.num * (b.den : Int))) (a.den * (-b.num).toNat)

/-- Models JS `parseFloat` on a character list: skips leading whitespace, then
reads an optional sign and the longest `digits[.digits]` prefix; `none` models
`NaN`.  Exponents and the literal `Infinity`, which no dataset here uses, are
not modelled. -/
def parseFloatChars (cs : List Char) : Option ℚ :=
  let cs1 := cs.dropWhile (fun c => c == ' ' || c == '\t' || c == '\n' || c == '\r')
  let signAndBody : Bool × List Char :=
    match cs1 with
    | '-' :: rest => (true, rest)
    | '+' :: rest => (false, rest)
    | _ => (false, cs1)
  let neg := signAndBody.1
  let body := signAndBody.2
  let ip := body.takeWhile Char.isDigit
  let afterInt := body.dropWhile Char.isDigit
  let fp : List Char :=
    match afterInt with
    | '.' :: rest => rest.takeWhile Char.isDigit
    | _ => []
  if ip.isEmpty && fp.isEmpty then none
  else
    let mag : ℚ :=
      ratAdd (natOfDigits ip : ℚ) (ratDiv (natOfDigits fp : ℚ) ((10 ^ fp.length : Nat) : ℚ))
    some (if neg then -mag else mag)

/-- JS `parseFloat` on a `JSValue` (the argument is string-coerced first:
`null`, `undefined` and numbers-as-numbers behave as shown). -/
def parseFloatV : JSValue → Option ℚ
  | .vNum q => some q
  | .vStr s => parseFloatChars s.data
  | _ => none

/-- Gregorian leap-year test. -/
def isLeapYear (y : Int) : Bool := (y % 4 == 0 && y % 100 != 0) || y % 400 == 0

/-- Days in month `m` (1-12) of year `y`; 0 for an out-of-range month. -/
def daysInMonth (y : Int) (m : Nat) : Int :=
  match m with
  | 1 => 31
  | 2 => if isLeapYear y then 29 else 28
  | 3 => 31
  | 4 => 30
  | 5 => 31
  | 6 => 30
  | 7 => 31
  | 8 => 31
  | 9 => 30
  | 10 => 31
  | 11 => 30
  | 12 => 31
  | _ => 0

/-- Number of leap years strictly before year `y` (proleptic Gregorian). -/
def leapsBeforeYear (y : Int) : Int :=
  Int.fdiv (y - 1) 4 - Int.fdiv (y - 1) 100 + Int.fdiv (y - 1) 400

/-- Days contributed by the months of year `y` before month `m`. -/
def cumDaysBeforeMonth (y : Int) (m : Nat) : Int :=
  (List.range (m - 1)).foldl (fun a i => a + daysInMonth y (i + 1)) 0

/-- Day number of `y-m-d` counted from the Unix epoch 1970-01-01. -/
def epochDay (y : Int) (m : Nat) (d : Int) : Int :=
  365 * (y - 1970) + (leapsBeforeYear y - leapsBeforeYear 1970) +
    cumDaysBeforeMonth y m + (d - 1)

/-- Models `Date.parse` / `new Date(string)` on the formats the datasets use:
an ISO `YYYY-MM-DD` date (UTC midnight) or `YYYY-MM-DDTHH:MM:SSZ` datetime,
returning epoch milliseconds; `none` models an invalid date (`NaN`).  The
engine-specific free-form fallback parser is not modelled. -/
def parseIsoChars (cs : List Char) : Option Int :=
  match cs with
  | [y1, y2, y3, y4, '-', m1, m2, '-', d1, d2] =>
    if [y1, y2, y3, y4, m1, m2, d1, d2].all Char.isDigit then
      let y : Int := (natOfDigits [y1, y2, y3, y4] : Int)
      let mo : Nat := natOfDigits [m1, m2]
      let da : Int := (natOfDigits [d1, d2] : Int)
      if 1 ≤ mo ∧ mo ≤ 12 ∧ 1 ≤ da ∧ da ≤ daysInMonth y mo then
        some (86400000 * epochDay y mo da)
      else none
    else none
  | y1 :: y2 :: y3 :: y4 :: '-' :: m1 :: m2 :: '-' :: d1 :: d2 :: 'T' ::
      h1 :: h2 :: ':' :: n1 :: n2 :: ':' :: s1 :: s2 :: rest =>
    if rest = ['Z'] ∧
        [y1, y2, y3, y4, m1, m2, d1, d2, h1, h2, n1, n2, s1, s2].all Char.isDigit then
      let y : Int := (natOfDigits [y1, y2, y3, y4] : Int)
      let mo : Nat := natOfDigits [m1, m2]
      let da : Int := (natOfDigits [d1, d2] : Int)
      let hh : Int := (natOfDigits [h1, h2] : Int)
      let mm : Int := (natOfDigits [n1, n2] : Int)
      let ss : Int := (natOfDigits [s1, s2] : Int)
      if 1 ≤ mo ∧ mo ≤ 12 ∧ 1 ≤ da ∧ da ≤ daysInMonth y mo ∧
          hh ≤ 23 ∧ mm ≤ 59 ∧ ss ≤ 59 then
        some (86400000 * epochDay y mo da + 3600000 * hh + 60000 * mm + 1000 * ss)
      else none
    else none
  | _ => none

/-- Models `Date.parse` on a `JSValue`.  Non-string inputs are string-coerced
by JS and then fed to the engine-specific fallback parser; for the values
occurring here that fallback yields `NaN`, so they map to `none`. -/
def dateParseV : JSValue → Option Int
  | .vStr s => parseIsoChars s.data
  | _ => none

/-- Models `new Date(v).getTime()`: `null` coerces to epoch 0, `undefined` to
`NaN`, a number is taken as an epoch-milliseconds timestamp (truncated toward
zero), a string is parsed as a date. -/
def newDateMs : JSValue → Option Int
  | .vNull => some 0
  | .vUndefined => none
  | .vNum q => some (if 0 ≤ q then ⌊q⌋ else ⌈q⌉)
  | .vStr s => parseIsoChars s.data

/-- Models the regex `^\d{4}-\d{2}-\d{2}` (prefix match). -/
def fmtYMDChars : List Char → Bool
  | y1 :: y2 :: y3 :: y4 :: '-' :: m1 :: m2 :: '-' :: d1 :: d2 :: _ =>
    [y1, y2, y3, y4, m1, m2, d1, d2].all Char.isDigit
  | _ => false

/-- Models the regex `^\d{2}\/\d{2}\/\d{4}` (prefix match). -/
def fmtMDYChars : List Char → Bool
  | a1 :: a2 :: '/' :: b1 :: b2 :: '/' :: c1 :: c2 :: c3 :: c4 :: _ =>
    [a1, a2, b1, b2, c1, c2, c3, c4].all Char.isDigit
  | _ => false

/-- Models the regex `^\d{4}-\d{2}-\d{2}T\d{2}:\d{2}:\d{2}` (prefix match). -/
def fmtISOChars : List Char → Bool
  | y1 :: y2 :: y3 :: y4 :: '-' :: m1 :: m2 :: '-' :: d1 :: d2 :: 'T' ::
      h1 :: h2 :: ':' :: n1 :: n2 :: ':' :: s1 :: s2 :: _ =>
    [y1, y2, y3, y4, m1, m2, d1, d2, h1, h2, n1, n2, s1, s2].all Char.isDigit
  | _ => false

/-- `isTemporalField` from `dataAnalysis.js`: every one of the first five
values is either a string matching one of the date-format regexes or an input
`Date.parse` accepts. -/
def isTemporalField (values : List JSValue) : Bool :=
  (values.take 5).all fun v =>
    match v with
    | .vStr s =>
      fmtYMDChars s.data || fmtMDYChars s.data || fmtISOChars s.data ||
        (dateParseV (.vStr s)).isSome
    | w => (dateParseV w).isSome

/-- `isQuantitativeField` from `dataAnalysis.js`: every one of the first five
values parses to a finite number via `parseFloat`. -/
def isQuantitativeField (values : List JSValue) : Bool :=
  (values.take 5).all fun v => (parseFloatV v).isSome

/-- A JS number as produced by the analyzer's arithmetic: finite, `NaN`, or an
infinity (`Math.max()` of nothing is `-Infinity`, `0/0` is `NaN`, ...). -/
inductive JSNum where
  | num (q : ℚ)
  | nan
  | posInf
  | negInf
  deriving DecidableEq, Repr

/-- JS division on numbers (`a / b`); the signed-zero distinction is not
modelled (no computation here observes it). -/
def jsDiv : JSNum → JSNum → JSNum
  | .num a, .num b =>
    if b = 0 then (if a = 0 then .nan else if 0 < a then .posInf else .negInf)
    else .num (ratDiv a b)
  | .nan, _ => .nan
  | _, .nan => .nan
  | .posInf, .posInf => .nan
  | .posInf, .negInf => .nan
  | .negInf, .posInf => .nan
  | .negInf, .negInf => .nan
  | .posInf, .num b => if 0 ≤ b then .posInf else .negInf
  | .negInf, .num b => if 0 ≤ b then .negInf else .posInf
  | .num _, .posInf => .num 0
  | .num _, .negInf => .num 0

/-- Binary `Math.max`. -/
def jsMax : JSNum → JSNum → JSNum
  | .nan, _ => .nan
  | _, .nan => .nan
  | .posInf, _ => .posInf
  | _, .posInf => .posInf
  | .negInf, b => b
  | a, .negInf => a
  | .num a, .num b => .num (max a b)

/-- Binary `Math.min`. -/
def jsMin : JSNum → JSNum → JSNum
  | .nan, _ => .nan
  | _, .nan => .nan
  | .negInf, _ => .negInf
  | _, .negInf => .negInf
  | .posInf, b => b
  | a, .posInf => a
  | .num a, .num b => .num (min a b)

/-- `Math.max(...l)`: fold of `jsMax` from `-Infinity` (the empty spread). -/
def jsMaxList (l : List JSNum) : JSNum := l.foldl jsMax .negInf

/-- `Math.min(...l)`: fold of `jsMin` from `+Infinity` (the empty spread). -/
def jsMinList (l : List JSNum) : JSNum := l.foldl jsMin .posInf

/-- `Math.round` (half toward positive infinity on finite numbers). -/
def jsRound : JSNum → JSNum
  | .num q => .num ((⌊ratAdd q (mkRat 1 2)⌋ : ℤ) : ℚ)
  | .nan => .nan
  | .posInf => .posInf
  | .negInf => .negInf

/-- JS truthiness of a number (`0` and `NaN` are falsy). -/
def jsNumTruthy : JSNum → Bool
  | .num q => if q = 0 then false else true
  | .nan => false
  | _ => true

/-- The new-Set-based dedup `[...new Set(values)]`: distinct values in first
appearance order. -/
def jsSetDedup (l : List JSValue) : List JSValue :=
  l.foldl (fun acc v => if v ∈ acc then acc else acc ++ [v]) []

/-- Per-column statistics.  Absent object keys are `none`.  `stype` is the
`type` key of the `{ type: "empty", uniqueCount: 0 }` stats of an all-missing
column; `uniqueShare` is the source's `uniqueCount / totalCount` ratio field;
`statMin`/`statMax`/`statAvg` are its `min`/`max`/`avg`. -/
structure FieldStats where
  stype : Option String := none
  uniqueCount : Option Nat := none
  totalCount : Option Nat := none
  uniqueShare : Option ℚ := none
  statMin : Option JSNum := none
  statMax : Option JSNum := none
  statAvg : Option JSNum := none
  categories : Option (List JSValue) := none
  deriving DecidableEq, Repr

/-- Result of `analyzeFieldType`: the inferred semantic type and the stats. -/
structure FieldTypeInfo where
  ftype : String
  stats : FieldStats
  deriving DecidableEq, Repr

/-- `analyzeFieldType` from `dataAnalysis.js`: temporal, else quantitative
(with min/max/avg over the values `parseFloat` accepts), else ordinal when at
most 20 distinct values fill less than half the sample, else nominal. -/
def analyzeFieldType (values : List JSValue) : FieldTypeInfo :=
  let uniqueValues := jsSetDedup values
  let uniqueCount := uniqueValues.length
  let totalCount := values.length
  let frac : ℚ := ratDiv (uniqueCount : ℚ) (totalCount : ℚ)
  if isTemporalField values then
    ⟨"temporal",
      { uniqueCount := some uniqueCount, totalCount := some totalCount,
        uniqueShare := some frac }⟩
  else if isQuantitativeField values then
    let numericValues := values.filterMap parseFloatV
    ⟨"quantitative",
      { uniqueCount := some uniqueCount, totalCount := some totalCount,
        uniqueShare := some frac,
        statMin := some (jsMinList (numericValues.map JSNum.num)),
        statMax := some (jsMaxList (numericValues.map JSNum.num)),
        statAvg := some (jsDiv (.num (numericValues.foldl (fun a b => ratAdd a b) 0))
          (.num (numericValues.length : ℚ))) }⟩
  else if uniqueCount ≤ 20 ∧ frac < mkRat 1 2 then
    ⟨"ordinal",
      { uniqueCount := some uniqueCount, totalCount := some totalCount,
        uniqueShare := some frac, categories := some uniqueValues }⟩
  else
    ⟨"nominal",
      { uniqueCount := some uniqueCount, totalCount := some totalCount,
        uniqueShare := some frac, categories := some (uniqueValues.take 10) }⟩

/-- The `analysis` sub-object of `analyzeDataStructure`'s result: either the
bare `{ isEmpty: true }` sentinel (no other keys) or the full record with the
four grouped field lists. -/
inductive AnalysisInfo where
  | emptyInfo
  | info (recordCount : Nat)
      (quantitativeFields nominalFields temporalFields ordinalFields : List String)
  deriving DecidableEq, Repr

/-- The `quantitativeFields` key, `none` when absent (empty sentinel). -/
def AnalysisInfo.quantitativeFields? : AnalysisInfo → Option (List String)
  | .emptyInfo => none
  | .info _ q _ _ _ => some q

/-- The `nominalFields` key, `none` when absent (empty sentinel). -/
def AnalysisInfo.nominalFields? : AnalysisInfo → Option (List String)
  | .emptyInfo => none
  | .info _ _ n _ _ => some n

/-- The `temporalFields` key, `none` when absent (empty sentinel). -/
def AnalysisInfo.temporalFields? : AnalysisInfo → Option (List String)
  | .emptyInfo => none
  | .info _ _ _ t _ => some t

/-- The `ordinalFields` key, `none` when absent (empty sentinel). -/
def AnalysisInfo.ordinalFields? : AnalysisInfo → Option (List String)
  | .emptyInfo => none
  | .info _ _ _ _ o => some o

/-- Result of `analyzeDataStructure`.  On the empty/non-array input the source
returns `{ fields: [], fieldTypes: {}, analysis: { isEmpty: true } }` with no
`fieldStats` key at all, hence `fieldStats : Option _`. -/
structure AnalyzeResult where
  fields : List String
  fieldTypes : List (String × String)
  fieldStats : Option (List (String × FieldStats))
  analysis : AnalysisInfo
  deriving DecidableEq, Repr

/-- `fieldTypes[f]` as an association-list lookup. -/
def typeOfField (ts : List (String × String)) (f : String) : Option String :=
  (ts.find? (fun p => p.1 == f)).map (fun p => p.2)

/-- The sentinel returned for a missing, non-array or empty dataset. -/
def emptyAnalyzeResult : AnalyzeResult := ⟨[], [], none, .emptyInfo⟩

/-- `analyzeDataStructure` from `dataAnalysis.js`.  The input is `none` for a
missing or non-array argument.  Each of the first record's columns is typed
from the non-missing values of the first-10-record sample; a column with no
such values is forced to nominal with `{ type: "empty", uniqueCount: 0 }`. -/
def analyzeDataStructure : Option (List Record) → AnalyzeResult
  | none => emptyAnalyzeResult
  | some [] => emptyAnalyzeResult
  | some data =>
    let sample := data.take 10
    let fields := (sample.headD []).map Prod.fst
    let typed : List (String × FieldTypeInfo) := fields.map (fun f =>
      let values := (sample.map (fun r => getField r f)).filter (fun v => !isMissing v)
      if values.isEmpty then
        (f, ⟨"nominal", { stype := some "empty", uniqueCount := some 0 }⟩)
      else (f, analyzeFieldType values))
    let fieldTypes := typed.map (fun p => (p.1, p.2.ftype))
    ⟨fields, fieldTypes,
      some (typed.map (fun p => (p.1, p.2.stats))),
      .info data.length
        (fields.filter (fun f => typeOfField fieldTypes f == some "quantitative"))
        (fields.filter (fun f => typeOfField fieldTypes f == some "nominal"))
        (fields.filter (fun f => typeOfField fieldTypes f == some "temporal"))
        (fields.filter (fun f => typeOfField fieldTypes f == some "ordinal"))⟩

/-- Result of `suggestBestFields`; a field can be `undefined` (fallback on a
dataset with no columns). -/
structure BestFields where
  xField : Option String
  yField : Option String
  reasoning : String
  deriving DecidableEq, Repr

/-- JS falsiness of a possibly-undefined string (`undefined` and `""`). -/
def strFalsy : Option String → Bool
  | none => true
  | some s => s == ""

/-- JS `a || b` on possibly-undefined strings. -/
def jsOrStr (a b : Option String) : Option String := if strFalsy a then b else a

/-- `suggestBestFields` from `dataAnalysis.js`: the axis-pairing priority
ladder over the grouped field lists.  `none` models the TypeError the source
would raise on the empty-analysis sentinel, whose `analysis` object has no
grouped lists. -/
def suggestBestFields (a : AnalyzeResult) : Option BestFields :=
  match a.analysis with
  | .emptyInfo => none
  | .info _ q n t o => some (
    if 0 < t.length ∧ 0 < q.length then
      ⟨t.head?, q.head?, "Time series: temporal data over time"⟩
    else if (0 < n.length ∨ 0 < o.length) ∧ 0 < q.length then
      ⟨jsOrStr n.head? o.head?, q.head?, "Categorical analysis: categories vs quantities"⟩
    else if 2 ≤ q.length then
      ⟨q.head?, q.get? 1, "Correlation analysis: two quantitative variables"⟩
    else
      ⟨a.fields.head?, jsOrStr (a.fields.get? 1) a.fields.head?,
        "Default: using available fields"⟩)

/-- Result of `suggestChartType`. -/
structure ChartSuggestion where
  chartType : String
  reasoning : String
  deriving DecidableEq, Repr

/-- `suggestChartType` from `dataAnalysis.js`: the chart-kind priority ladder
over the grouped field lists (same `none` convention as `suggestBestFields`). -/
def suggestChartType (a : AnalyzeResult) : Option ChartSuggestion :=
  match a.analysis with
  | .emptyInfo => none
  | .info _ q n t o => some (
    if 0 < t.length ∧ 0 < q.length then
      ⟨"line", "Line chart for time series data"⟩
    else if (0 < n.length ∨ 0 < o.length) ∧ 0 < q.length then
      ⟨"bar", "Bar chart for categorical analysis"⟩
    else if 2 ≤ q.length then
      ⟨"scatter", "Scatter plot for correlation analysis"⟩
    else if 0 < n.length ∨ 0 < o.length then
      ⟨"pie", "Pie chart for categorical distribution"⟩
    else
      ⟨"bar", "Default bar chart"⟩)

/-- `analysis.fieldTypes[f] || dflt` with a possibly-undefined field name. -/
def fieldTypeOr (a : AnalyzeResult) (f : Option String) (dflt : String) : String :=
  match f with
  | some s => (typeOfField a.fieldTypes s).getD dflt
  | none => dflt

/-- The encoding channels of the Vega-Lite bar spec built by `createBarChart`
(`chartGeneration.js`).  `colorLegend = none` models `legend: null`; titles and
static styling of the spec are not modelled. -/
structure BarSpec where
  xField : Option String
  xType : String
  yField : Option String
  yType : String
  yAggregate : String
  colorField : Option String
  colorType : String
  colorLegend : Option Bool
  deriving DecidableEq, Repr

/-- `createBarChart` from `chartGeneration.js`.  `none` models the TypeError
on the empty-analysis sentinel (it reads `analysis.analysis.nominalFields`). -/
def createBarChart (a : AnalyzeResult) (xField yField : Option String) : Option BarSpec :=
  match a.analysis with
  | .emptyInfo => none
  | .info _ _ n _ _ =>
    let xType := fieldTypeOr a xField "nominal"
    let yType := fieldTypeOr a yField "quantitative"
    some ⟨xField, xType, yField, yType,
      if yType = "quantitative" then "sum" else "count",
      xField, xType,
      if 10 < n.length then none else some true⟩

/-- The encoding channels of the line spec built by `createLineChart`. -/
structure LineSpec where
  xField : Option String
  xType : String
  yField : Option String
  yType : String
  colorValue : String
  deriving DecidableEq, Repr

/-- `createLineChart` from `chartGeneration.js` (reads only `fieldTypes`). -/
def createLineChart (a : AnalyzeResult) (xField yField : Option String) : LineSpec :=
  ⟨xField, fieldTypeOr a xField "temporal",
   yField, fieldTypeOr a yField "quantitative", "#3b82f6"⟩

/-- The encoding channels of the scatter spec built by `createScatterChart`;
`colorField = none` models the fixed-color branch. -/
structure ScatterSpec where
  xField : Option String
  xType : String
  yField : Option String
  yType : String
  colorField : Option String
  colorType : Option String
  deriving DecidableEq, Repr

/-- `createScatterChart` from `chartGeneration.js`. -/
def createScatterChart (a : AnalyzeResult) (xField yField : Option String) :
    Option ScatterSpec :=
  match a.analysis with
  | .emptyInfo => none
  | .info _ _ n _ o =>
    let colorField := jsOrStr n.head? o.head?
    some ⟨xField, fieldTypeOr a xField "quantitative",
      yField, fieldTypeOr a yField "quantitative",
      colorField,
      match colorField with
      | some c => some ((typeOfField a.fieldTypes c).getD "nominal")
      | none => none⟩

/-- The encoding channels of the pie spec built by `createPieChart`. -/
structure PieSpec where
  colorField : Option String
  colorType : String
  thetaAggregate : String
  deriving DecidableEq, Repr

/-- `createPieChart` from `chartGeneration.js` (reads only `fieldTypes`). -/
def createPieChart (a : AnalyzeResult) (f : Option String) : PieSpec :=
  ⟨f, fieldTypeOr a f "nominal", "count"⟩

/-- A chart produced by `generateDynamicChart`: the placeholder "no data" text
spec or one of the four kinds. -/
inductive GenChart where
  | emptyChart
  | barChart (s : BarSpec)
  | lineChart (s : LineSpec)
  | scatterChart (s : ScatterSpec)
  | pieChart (s : PieSpec)
  deriving DecidableEq, Repr

/-- `generateDynamicChart` from `chartGeneration.js`: empty chart for missing
or empty data, else analyze, pick fields and kind, and build the spec (the
switch defaults to bar).  `sqlQuery` and `userQuestion` only feed the title,
which is not modelled.  The outer `none` models a TypeError, which this
composition never produces. -/
def generateDynamicChart (data : Option (List Record))
    (sqlQuery userQuestion : String) : Option GenChart :=
  match data with
  | none => some .emptyChart
  | some [] => some .emptyChart
  | some d =>
    let a := analyzeDataStructure (some d)
    match suggestBestFields a, suggestChartType a with
    | some bf, some cs =>
      if cs.chartType = "line" then some (.lineChart (createLineChart a bf.xField bf.yField))
      else if cs.chartType = "scatter" then
        (createScatterChart a bf.xField bf.yField).map GenChart.scatterChart
      else if cs.chartType = "pie" then some (.pieChart (createPieChart a bf.xField))
      else (createBarChart a bf.xField bf.yField).map GenChart.barChart
    | _, _ => none

/-- Result of `validateDataForGraphicWalker` (`fieldMapping.js`). -/
structure ValidationResult where
  isValid : Bool
  reason : String
  suggestions : List String
  deriving DecidableEq, Repr

/-- `validateDataForGraphicWalker` from `fieldMapping.js`, with the source's
check order: non-array, empty, more than 10000 records, zero fields, one
field, else fine. -/
def validateDataForGraphicWalker : Option (List Record) → ValidationResult
  | none =>
    ⟨false, "Data must be an array",
      ["Ensure data is properly formatted as an array of objects"]⟩
  | some data =>
    if data.length = 0 then
      ⟨false, "No data available", ["Fetch data from the API first"]⟩
    else if 10000 < data.length then
      ⟨true, "Large dataset detected",
        ["Consider filtering data for better performance",
         "GraphicWalker may be slow with large datasets"]⟩
    else
      let a := analyzeDataStructure (some data)
      if a.fields.length = 0 then
        ⟨false, "No fields detected in data", ["Ensure data objects have properties"]⟩
      else if a.fields.length = 1 then
        ⟨true, "Limited analysis possible with single field",
          ["More fields would enable richer visualizations"]⟩
      else ⟨true, "Data is suitable for GraphicWalker", []⟩

/-- One entry of the `details` list built by `calculateTurnaroundTimes`;
`startTimeMs`/`endTimeMs` keep the parsed epoch values whose ISO rendering the
source stores. -/
structure TurnaroundDetail where
  shipmentId : JSValue
  turnaroundMinutes : ℚ
  startTimeMs : Int
  endTimeMs : Int
  deriving DecidableEq, Repr

/-- Result object of `calculateTurnaroundTimes`. -/
structure TurnaroundResult where
  avgTurnaround : JSNum
  maxTurnaround : JSNum
  minTurnaround : JSNum
  details : List TurnaroundDetail
  deriving DecidableEq, Repr

/-- `row.shipment_id || row.ticket_id || "Unknown"`. -/
def shipIdOf (row : Record) : JSValue :=
  let a := getField row "shipment_id"
  if jsTruthy a then a
  else
    let b := getField row "ticket_id"
    if jsTruthy b then b else .vStr "Unknown"

/-- The `turnaroundTimes` list built inside `calculateTurnaroundTimes`: one
detail per record whose two timestamps both parse, with the duration in
minutes. -/
def turnaroundDetailsOf (data : List Record) (startField endField : String) :
    List TurnaroundDetail :=
  data.filterMap (fun row =>
    match newDateMs (getField row startField), newDateMs (getField row endField) with
    | some s, some e => some ⟨shipIdOf row, ratDiv ((e - s : Int) : ℚ) 60000, s, e⟩
    | _, _ => none)

/-- `calculateTurnaroundTimes` from `dataAnalysis.js`: `none` models the
`null` returned when fewer than two temporal columns exist; otherwise each
record whose first two timestamps both parse contributes its duration in
minutes, and avg/max/min are `sum/length`, `Math.max(...)`, `Math.min(...)`
over the collected durations. -/
def calculateTurnaroundTimes (data : List Record) (timeFields : List String) :
    Option TurnaroundResult :=
  match timeFields with
  | startField :: endField :: _ =>
    let turnaroundTimes := turnaroundDetailsOf data startField endField
    some ⟨jsDiv (.num (turnaroundTimes.foldl (fun a t => ratAdd a t.turnaroundMinutes) 0))
            (.num (turnaroundTimes.length : ℚ)),
          jsMaxList (turnaroundTimes.map (fun t => .num t.turnaroundMinutes)),
          jsMinList (turnaroundTimes.map (fun t => .num t.turnaroundMinutes)),
          turnaroundTimes⟩
  | _ => none

/-- A stuck shipment: the spread turnaround detail plus the delay fields
added by `detectStuckShipments`. -/
structure StuckShipment where
  detail : TurnaroundDetail
  status : String
  delayMinutes : ℚ
  severity : String
  deriving DecidableEq, Repr

/-- `detectStuckShipments` from `dataAnalysis.js`: records whose turnaround
exceeds the 90-minute threshold, flagged `DELAYED` with delay `turnaround - 45`
and severity `CRITICAL` only strictly above 180 minutes.  The
`shipmentFields` parameter is declared but never read by the source body. -/
def detectStuckShipments (data : List Record) (shipmentFields timeFields : List String) :
    List StuckShipment :=
  if timeFields.length < 2 then []
  else
    match calculateTurnaroundTimes data timeFields with
    | none => []
    | some td => td.details.filterMap (fun s =>
        if 90 < s.turnaroundMinutes then
          some ⟨s, "DELAYED", ratSub s.turnaroundMinutes 45,
            if 180 < s.turnaroundMinutes then "CRITICAL" else "WARNING"⟩
        else none)

/-- JS string rendering of the rationals used as lane labels; non-integers,
which the datasets here never use as lanes, are rendered as `num/den`. -/
def jsNumToString (q : ℚ) : String :=
  if q.den = 1 then toString q.num else toString q.num ++ "/" ++ toString q.den

/-- JS template-literal coercion of a `JSValue` to a string. -/
def jsToString : JSValue → String
  | .vUndefined => "undefined"
  | .vNull => "null"
  | .vStr s => s
  | .vNum q => jsNumToString q

/-- Character-level splitting on a separator, as JS `key.split(sep)` behaves
(kept structural so concrete runs reduce inside the kernel). -/
def splitCharsOn (sep : Char) : List Char → List (List Char)
  | [] => [[]]
  | c :: rest =>
    match splitCharsOn sep rest with
    | [] => [[c]]
    | w :: ws => if c = sep then [] :: w :: ws else (c :: w) :: ws

/-- JS `s.split(sep)` for a one-character separator. -/
def splitStringOn (sep : Char) (s : String) : List String :=
  (splitCharsOn sep s.data).map (fun w => String.mk w)

/-- `new Date(timestamp).getHours()` as interpolated into the congestion key:
the hour of day (modelled at UTC), or `"NaN"` for an unparseable timestamp. -/
def hourStringOf (ts : JSValue) : String :=
  match newDateMs ts with
  | some e => toString ((Int.fdiv e 3600000) % 24)
  | none => "NaN"

/-- `congestionMap[key] = (congestionMap[key] || 0) + 1` on an insertion-order
association list, as JS object updates behave. -/
def bumpCount : List (String × Nat) → String → List (String × Nat)
  | [], k => [(k, 1)]
  | (k2, c) :: rest, k =>
    if k2 = k then (k2, c + 1) :: rest else (k2, c) :: bumpCount rest k

/-- One bucket of the congestion result: the `congestionLevels[lane][hour] =
Level` assignment flattened into a list entry. -/
structure CongestionEntry where
  lane : String
  hour : String
  count : Nat
  level : String
  deriving DecidableEq, Repr

/-- `analyzeCongestion` from `dataAnalysis.js`: counts records per
`lane_hour` key (skipping falsy lanes/timestamps), then classifies each bucket
`Heavy` above 10, `Moderate` above 5, else `Normal`.  The nested lane→hour
object is modelled as the flat list of its entries (`key.split("_")`
destructured to the first two parts, as in the source). -/
def analyzeCongestion (data : List Record) (laneFields timeFields : List String) :
    List CongestionEntry :=
  match laneFields, timeFields with
  | primaryLane :: _, primaryTime :: _ =>
    let congestionMap := data.foldl (fun m row =>
      let lane := getField row primaryLane
      let timestamp := getField row primaryTime
      if jsTruthy lane && jsTruthy timestamp then
        bumpCount m (jsToString lane ++ "_" ++ hourStringOf timestamp)
      else m) []
    congestionMap.map (fun p =>
      let parts := splitStringOn '_' p.1
      ⟨parts.headD "", (parts.get? 1).getD "", p.2,
        if 10 < p.2 then "Heavy" else if 5 < p.2 then "Moderate" else "Normal"⟩)
  | _, _ => []

/-- The KPI object built by `calculateTrafficKPIs`. -/
structure TrafficKPIs where
  totalShipments : Nat
  activeLanes : Nat
  avgTurnaroundMinutes : Option JSNum
  onTimePercentage : ℚ
  delayedShipments : Nat
  operationalEfficiency : String
  deriving DecidableEq, Repr

/-- `x.toFixed(1)` re-read by `parseFloat`, for the nonnegative finite values
produced here: rounding half away from zero to one decimal place. -/
def toFixed1 (q : ℚ) : ℚ := ratDiv ((⌊ratAdd (ratMul q 10) (mkRat 1 2)⌋ : ℤ) : ℚ) 10

/-- `calculateTrafficKPIs` from `dataAnalysis.js`.  The on-time percentage is
`((total - stuck) / total * 100).toFixed(1)` for a nonempty dataset and the
literal `100` otherwise; `avgTurnaroundMinutes` is the rounded average
turnaround when that average is truthy, else `null`. -/
def calculateTrafficKPIs (data : List Record) (laneFields timeFields : List String) :
    TrafficKPIs :=
  let totalShipments := data.length
  let uniqueLanes := match laneFields with
    | lf :: _ => (jsSetDedup ((data.map (fun r => getField r lf)).filter jsTruthy)).length
    | [] => 0
  let turnaroundData := calculateTurnaroundTimes data timeFields
  let avgTurnaround : Option JSNum := turnaroundData.map (fun t => t.avgTurnaround)
  let stuckCount := (detectStuckShipments data [] timeFields).length
  let onTime : ℚ :=
    if 0 < totalShipments then
      toFixed1 (ratMul (ratDiv (ratSub (totalShipments : ℚ) (stuckCount : ℚ))
        (totalShipments : ℚ)) 100)
    else 100
  ⟨totalShipments, uniqueLanes,
   (match avgTurnaround with
    | some v => if jsNumTruthy v then some (jsRound v) else none
    | none => none),
   onTime, stuckCount,
   if 90 < onTime then "Excellent"
   else if 80 < onTime then "Good"
   else if 70 < onTime then "Fair"
   else "Poor"⟩

/-- Modelled from the spec's words, for comparison with the source behaviour:
the number of distinct categories a field takes over the whole dataset. -/
def specDistinctCategories (data : List Record) (f : String) : Nat :=
  (jsSetDedup (data.map (fun r => getField r f))).length

/-- Modelled from the spec's words, for comparison with the source behaviour:
the non-missing values of the at-most-10-row sample of a column. -/
def specSampledValues (data : List Record) (f : String) : List JSValue :=
  ((data.take 10).map (fun r => getField r f)).filter (fun v => !isMissing v)

/-- The single-record dataset of the 180-minute stuck-shipment example. -/
def c1data : List Record :=
  [[("lane", .vStr "A"), ("t0", .vStr "2024-01-01T00:00:00Z"),
    ("t1", .vStr "2024-01-01T03:00:00Z")]]

/-- A dataset with a 12-category nominal column and a quantitative column. -/
def c2data : List Record :=
  (List.range 12).map (fun i =>
    [("cat", JSValue.vStr ("x" ++ toString i)), ("val", JSValue.vNum (-(i : ℚ) - 1))])

/-- The bar spec `generateDynamicChart` produces for `c2data`. -/
def c2barSpec : BarSpec :=
  ⟨some "cat", "nominal", some "val", "quantitative", "sum",
   some "cat", "nominal", some true⟩

/-- A sampled column whose first five values are numeric but whose sixth is
not. -/
def c3values : List JSValue :=
  [.vNum (-1), .vNum (-2), .vNum (-3), .vNum (-4), .vNum (-5), .vStr "x"]

/-- 10001 records with no columns at all. -/
def c5big : List Record := ([] : Record) :: List.replicate 10000 ([] : Record)

/-- A one-column single-record dataset (validator warning case). -/
def c5small : List Record := [[("a", JSValue.vNum 1)]]

/-- An analysis with one temporal and one quantitative column. -/
def c6sample : AnalyzeResult :=
  ⟨["t", "q"], [("t", "temporal"), ("q", "quantitative")], some [],
   .info 1 ["q"] [] ["t"] []⟩

/-- One shipment record in lane A at 08:00 UTC. -/
def congestionRecord : Record :=
  [("lane", .vStr "A"), ("t", .vStr "2024-01-01T08:00:00Z")]

/-- Five identical lane-A 08:00 records. -/
def c7data5 : List Record := List.replicate 5 congestionRecord

/-- Six identical lane-A 08:00 records. -/
def c7data6 : List Record := List.replicate 6 congestionRecord

/-- Eleven identical lane-A 08:00 records. -/
def c7data11 : List Record := List.replicate 11 congestionRecord

/-- Three records of which exactly one (120-minute) turnaround is stuck. -/
def c8data : List Record :=
  [[("t0", .vStr "2024-01-01T00:00:00Z"), ("t1", .vStr "2024-01-01T02:00:00Z")],
   [("t0", .vStr "2024-01-01T00:00:00Z"), ("t1", .vStr "2024-01-01T00:30:00Z")],
   [("t0", .vStr "2024-01-01T00:00:00Z"), ("t1", .vStr "2024-01-01T00:30:00Z")]]

/-- One record whose two timestamp columns both fail to parse. -/
def c9data : List Record := [[("t0", .vStr "soon"), ("t1", .vStr "later")]]

/-! Helper lemmas shared by the claim theorems. -/

/-- `ratAdd` is rational addition. -/
theorem ratAdd_eq (a b : ℚ) : ratAdd a b = a + b := by
  rw [ratAdd, Rat.add_def']

/-- `ratSub` is rational subtraction. -/
theorem ratSub_eq (a b : ℚ) : ratSub a b = a - b := by
  rw [ratSub, Rat.sub_def']

/-- `ratMul` is rational multiplication. -/
theorem ratMul_eq (a b : ℚ) : ratMul a b = a * b := by
  rw [ratMul, Rat.mul_def, Rat.normalize_eq_mkRat]

/-- `ratDiv` is rational division. -/
theorem ratDiv_eq (a b : ℚ) : ratDiv a b = a / b := by
  rw [Rat.div_def']
  rcases lt_trichotomy b.num 0 with hneg | hzero | hpos
  · rw [ratDiv, if_neg (by omega), Rat.mkRat_eq_divInt]
    rw [show ((a.den * (-b.num).toNat : ℕ) : ℤ) = -(↑a.den * b.num) from by
      push_cast [Int.toNat_of_nonneg (by omega : (0 : ℤ) ≤ -b.num)]
      ring]
    rw [Rat.divInt_neg, Int.neg_neg]
  · have hb : b = 0 := Rat.num_eq_zero.mp hzero
    subst hb
    simp [ratDiv]
  · rw [ratDiv, if_pos (le_of_lt hpos), Rat.mkRat_eq_divInt]
    congr 1
    push_cast [Int.toNat_of_nonneg (le_of_lt hpos)]
    ring

/-- On a nonempty dataset the detected columns are the keys of the first
record. -/
theorem analyzeDataStructure_fields_cons (r : Record) (d : List Record) :
    (analyzeDataStructure (some (r :: d))).fields = r.map Prod.fst := rfl

/-- Unfolding of `calculateTurnaroundTimes` on two or more time fields. -/
theorem calculateTurnaroundTimes_cons (data : List Record) (t0 t1 : String)
    (rest : List String) :
    calculateTurnaroundTimes data (t0 :: t1 :: rest) =
      some ⟨jsDiv
              (.num ((turnaroundDetailsOf data t0 t1).foldl
                (fun a t => ratAdd a t.turnaroundMinutes) 0))
              (.num ((turnaroundDetailsOf data t0 t1).length : ℚ)),
            jsMaxList ((turnaroundDetailsOf data t0 t1).map (fun t => .num t.turnaroundMinutes)),
            jsMinList ((turnaroundDetailsOf data t0 t1).map (fun t => .num t.turnaroundMinutes)),
            turnaroundDetailsOf data t0 t1⟩ := rfl

/-- Unfolding of `detectStuckShipments` on two or more time fields. -/
theorem detectStuckShipments_cons (data : List Record) (sf : List String)
    (t0 t1 : String) (rest : List String) :
    detectStuckShipments data sf (t0 :: t1 :: rest) =
      (turnaroundDetailsOf data t0 t1).filterMap (fun s =>
        if 90 < s.turnaroundMinutes then
          some ⟨s, "DELAYED", ratSub s.turnaroundMinutes 45,
            if 180 < s.turnaroundMinutes then "CRITICAL" else "WARNING"⟩
        else none) := rfl

/-- At most one stuck shipment per record. -/
theorem detectStuckShipments_length_le (data : List Record) (sf tf : List String) :
    (detectStuckShipments data sf tf).length ≤ data.length := by
  match tf with
  | [] => exact Nat.zero_le _
  | [t0] => exact Nat.zero_le _
  | t0 :: t1 :: rest =>
    rw [detectStuckShipments_cons]
    exact le_trans (List.length_filterMap_le _ _) (List.length_filterMap_le _ _)

/-- `toFixed1` written with the ordinary rational operations. -/
theorem toFixed1_eq (q : ℚ) : toFixed1 q = ((⌊q * 10 + 1 / 2⌋ : ℤ) : ℚ) / 10 := by
  rw [toFixed1, ratDiv_eq, ratAdd_eq, ratMul_eq, Rat.mkRat_eq_divInt, Rat.divInt_eq_div]
  norm_num

/-- `toFixed1` preserves nonnegativity. -/
theorem toFixed1_nonneg (q : ℚ) (h : 0 ≤ q) : 0 ≤ toFixed1 q := by
  rw [toFixed1_eq]
  have h1 : (0 : ℤ) ≤ ⌊q * 10 + 1 / 2⌋ := by
    apply Int.le_floor.mpr
    push_cast
    linarith
  have h2 : (0 : ℚ) ≤ ((⌊q * 10 + 1 / 2⌋ : ℤ) : ℚ) := by exact_mod_cast h1
  linarith

/-- `toFixed1` stays at or below 100 on inputs at or below 100. -/
theorem toFixed1_le_100 (q : ℚ) (h : q ≤ 100) : toFixed1 q ≤ 100 := by
  rw [toFixed1_eq]
  have h0 : q * 10 + 1 / 2 ≤ (1000 : ℚ) + 1 / 2 := by linarith
  have h1 : ⌊q * 10 + 1 / 2⌋ ≤ ⌊(1000 : ℚ) + 1 / 2⌋ := Int.floor_le_floor h0
  have h2 : ⌊(1000 : ℚ) + 1 / 2⌋ = 1000 := by norm_num
  have h3 : ((⌊q * 10 + 1 / 2⌋ : ℤ) : ℚ) ≤ 1000 := by
    rw [h2] at h1
    exact_mod_cast h1
  linarith

/-! Claim theorems. -/

/-- C1 (counterexample): on the 180-minute single-record dataset the stuck
shipment is flagged with severity `WARNING`, not `CRITICAL` as claimed (180 is
not strictly greater than the 180-minute severity threshold). -/
theorem c1_stuck_severity_counterexample :
    (detectStuckShipments c1data [] ["t0", "t1"]).map (fun s => s.severity) = ["WARNING"] ∧
    (detectStuckShipments c1data [] ["t0", "t1"]).map (fun s => s.severity) ≠ ["CRITICAL"] := by
  decide

/-- C1 (amended): on `c1data` the temporal columns are `t0`, `t1`, the
computed turnaround is exactly 180 minutes, and stuck-shipment detection flags
the record `DELAYED` with delay 135 minutes and severity `WARNING`. -/
theorem c1_stuck_detection_amended :
    AnalysisInfo.temporalFields? (analyzeDataStructure (some c1data)).analysis =
      some ["t0", "t1"] ∧
    (calculateTurnaroundTimes c1data ["t0", "t1"]).map
      (fun t => t.details.map (fun s => s.turnaroundMinutes)) = some [180] ∧
    detectStuckShipments c1data [] ["t0", "t1"] =
      [⟨⟨.vStr "Unknown", 180, 1704067200000, 1704078000000⟩,
        "DELAYED", 135, "WARNING"⟩] := by
  refine ⟨by decide, by decide, by decide⟩

/-- C4 (counterexample): the sentinel returned for an empty dataset has no
`fieldStats` key and none of the four grouped field lists; in particular the
quantitative list is absent rather than present-and-empty. -/
theorem c4_sentinel_counterexample :
    (analyzeDataStructure (some [])).fieldStats = none ∧
    AnalysisInfo.quantitativeFields? (analyzeDataStructure (some [])).analysis = none ∧
    AnalysisInfo.nominalFields? (analyzeDataStructure (some [])).analysis = none ∧
    AnalysisInfo.temporalFields? (analyzeDataStructure (some [])).analysis = none ∧
    AnalysisInfo.ordinalFields? (analyzeDataStructure (some [])).analysis = none ∧
    ¬ AnalysisInfo.quantitativeFields? (analyzeDataStructure (some [])).analysis = some [] := by
  decide

/-- C4 (amended): classifying a missing/non-array or empty dataset returns,
without throwing, the sentinel with empty column list and empty type map,
whose stats map and grouped field lists are absent (its `analysis` carries
only the `isEmpty` flag). -/
theorem c4_sentinel_amended (d : Option (List Record)) (h : d = none ∨ d = some []) :
    analyzeDataStructure d = emptyAnalyzeResult ∧
    (analyzeDataStructure d).fields = [] ∧
    (analyzeDataStructure d).fieldTypes = [] ∧
    (analyzeDataStructure d).fieldStats = none ∧
    (analyzeDataStructure d).analysis = .emptyInfo := by
  rcases h with rfl | rfl <;> exact ⟨rfl, rfl, rfl, rfl, rfl⟩

/-- C4 (witness): the amended theorem applied to the missing input. -/
theorem c4_sentinel_amended_witness :
    analyzeDataStructure none = emptyAnalyzeResult :=
  (c4_sentinel_amended none (Or.inl rfl)).1

/-- C6: `suggestChartType` follows the claimed priority ladder: `line` for
temporal with quantitative, else `bar` for nominal-or-ordinal with
quantitative, else `scatter` for two quantitative fields, else `pie` for a
lone categorical field, else `bar`. -/
theorem c6_suggest_chart_type (a : AnalyzeResult) (rc : Nat) (q n t o : List String)
    (h : a.analysis = .info rc q n t o) :
    (suggestChartType a).map (fun c => c.chartType) = some (
      if 0 < t.length ∧ 0 < q.length then "line"
      else if (0 < n.length ∨ 0 < o.length) ∧ 0 < q.length then "bar"
      else if 2 ≤ q.length then "scatter"
      else if 0 < n.length ∨ 0 < o.length then "pie"
      else "bar") := by
  unfold suggestChartType
  rw [h]
  simp only [Option.map_some]
  split_ifs <;> rfl

/-- C6 (witness): the priority ladder instantiated on an analysis with one
temporal and one quantitative column yields `line`. -/
theorem c6_suggest_chart_type_witness :
    (suggestChartType c6sample).map (fun c => c.chartType) = some "line" := by
  have h := c6_suggest_chart_type c6sample 1 ["q"] [] ["t"] [] rfl
  rw [h]
  decide

/-- C7: every congestion bucket's level is `Heavy` above count 10, `Moderate`
above count 5, else `Normal`; concretely, counts 5, 6 and 11 in a single
(lane, hour) bucket yield `Normal`, `Moderate` and `Heavy`. -/
theorem c7_congestion_levels :
    (∀ (data : List Record) (laneFields timeFields : List String) (e : CongestionEntry),
        e ∈ analyzeCongestion data laneFields timeFields →
        e.level = if 10 < e.count then "Heavy"
          else if 5 < e.count then "Moderate" else "Normal") ∧
    analyzeCongestion c7data5 ["lane"] ["t"] = [⟨"A", "8", 5, "Normal"⟩] ∧
    analyzeCongestion c7data6 ["lane"] ["t"] = [⟨"A", "8", 6, "Moderate"⟩] ∧
    analyzeCongestion c7data11 ["lane"] ["t"] = [⟨"A", "8", 11, "Heavy"⟩] := by
  refine ⟨?_, by decide, by decide, by decide⟩
  intro data lf tf e he
  match lf, tf with
  | [], _ => simp [analyzeCongestion] at he
  | _ :: _, [] => simp [analyzeCongestion] at he
  | pl :: lrest, pt :: trest =>
    simp only [analyzeCongestion, List.mem_map] at he
    obtain ⟨p, hp, rfl⟩ := he
    rfl

/-- C7 (witness): the bucket-level rule applied to the concrete count-6
bucket produced by `c7data6`. -/
theorem c7_congestion_levels_witness :
    CongestionEntry.level ⟨"A", "8", 6, "Moderate"⟩ =
      if 10 < CongestionEntry.count ⟨"A", "8", 6, "Moderate"⟩ then "Heavy"
      else if 5 < CongestionEntry.count ⟨"A", "8", 6, "Moderate"⟩ then "Moderate"
      else "Normal" :=
  c7_congestion_levels.1 c7data6 ["lane"] ["t"] ⟨"A", "8", 6, "Moderate"⟩ (by decide)

/-- C9: with at least two temporal columns but no record whose first two
timestamps both parse, `calculateTurnaroundTimes` returns a non-null result
whose average is `0/0` (`NaN`), whose maximum is `Math.max()` of nothing
(`-Infinity`), whose minimum is `+Infinity`, and whose details are empty. -/
theorem c9_turnaround_empty_details (data : List Record) (t0 t1 : String)
    (rest : List String)
    (h : ∀ row ∈ data, ¬((newDateMs (getField row t0)).isSome ∧
        (newDateMs (getField row t1)).isSome)) :
    calculateTurnaroundTimes data (t0 :: t1 :: rest) =
      some ⟨.nan, .negInf, .posInf, []⟩ := by
  have hnil : turnaroundDetailsOf data t0 t1 = [] := by
    rw [turnaroundDetailsOf, List.filterMap_eq_nil_iff]
    intro row hr
    have hrow := h row hr
    cases h0 : newDateMs (getField row t0) with
    | none => simp
    | some a =>
      cases h1 : newDateMs (getField row t1) with
      | none => simp
      | some b =>
        exact absurd ⟨by rw [h0]; rfl, by rw [h1]; rfl⟩ hrow
  rw [calculateTurnaroundTimes_cons, hnil]
  rfl

/-- C9 (witness): the theorem applied to a record with two unparseable
timestamps. -/
theorem c9_turnaround_empty_details_witness :
    calculateTurnaroundTimes c9data ["t0", "t1"] = some ⟨.nan, .negInf, .posInf, []⟩ :=
  c9_turnaround_empty_details c9data "t0" "t1" [] (by decide)

/-- C10: `detectStuckShipments` does not read its `shipmentFields` parameter:
any two calls with the same data and time fields return the same list. -/
theorem c10_shipment_fields_unread (data : List Record)
    (sf1 sf2 timeFields : List String) :
    detectStuckShipments data sf1 timeFields = detectStuckShipments data sf2 timeFields :=
  rfl

/-- C2 (counterexample): on a dataset whose `cat` column has 12 distinct
categories, the generated bar spec keeps the color legend (`legend: true`)
even though the x field has more than 10 distinct categories — the source
tests the number of nominal columns, not the category count. -/
theorem c2_bar_legend_counterexample :
    generateDynamicChart (some c2data) "" "" = some (.barChart c2barSpec) ∧
    c2barSpec.colorLegend = some true ∧
    10 < specDistinctCategories c2data "cat" := by
  refine ⟨by decide, by decide, by decide⟩

/-- C2 (amended): the bar spec binds the color channel to the x field and
suppresses the color legend exactly when the number of nominal columns of the
analysis exceeds 10. -/
theorem c2_bar_legend_amended (a : AnalyzeResult) (x y : Option String)
    (rc : Nat) (q n t o : List String) (h : a.analysis = .info rc q n t o) :
    ∃ s, createBarChart a x y = some s ∧ s.colorField = x ∧
      (s.colorLegend = none ↔ 10 < n.length) := by
  have hc : createBarChart a x y =
      some ⟨x, fieldTypeOr a x "nominal", y, fieldTypeOr a y "quantitative",
        if fieldTypeOr a y "quantitative" = "quantitative" then "sum" else "count",
        x, fieldTypeOr a x "nominal",
        if 10 < n.length then none else some true⟩ := by
    unfold createBarChart
    rw [h]
  refine ⟨_, hc, rfl, ?_⟩
  by_cases hn : 10 < n.length
  · simp [hn]
  · simp [hn]

/-- C2 (witness): the amended theorem applied to an analysis with a single
nominal column, where the legend is kept. -/
theorem c2_bar_legend_amended_witness :
    ∃ s, createBarChart c6sample (some "t") (some "q") = some s ∧
      s.colorField = some "t" ∧
      (s.colorLegend = none ↔ 10 < ([] : List String).length) :=
  c2_bar_legend_amended c6sample (some "t") (some "q") 1 ["q"] [] ["t"] [] rfl

/-- C3 (counterexample): a column sample whose first five values are numeric
but whose sixth is not is still classified quantitative, although not every
non-missing sampled value parses as a finite number. -/
theorem c3_quantitative_sample_counterexample :
    (analyzeFieldType c3values).ftype = "quantitative" ∧
    (analyzeFieldType c3values).ftype ≠ "temporal" ∧
    c3values.all (fun v => (parseFloatV v).isSome) = false := by
  refine ⟨by decide, by decide, by decide⟩

/-- C3 (amended): a non-temporal column is classified quantitative exactly
when each of the FIRST FIVE non-missing sampled values parses as a finite
number; when it is quantitative, min/max/avg are computed over all sampled
values that parse. -/
theorem c3_quantitative_first_five_amended (values : List JSValue)
    (ht : (analyzeFieldType values).ftype ≠ "temporal") :
    ((analyzeFieldType values).ftype = "quantitative" ↔
      (values.take 5).all (fun v => (parseFloatV v).isSome) = true) ∧
    ((analyzeFieldType values).ftype = "quantitative" →
      (analyzeFieldType values).stats.statMin =
        some (jsMinList ((values.filterMap parseFloatV).map JSNum.num)) ∧
      (analyzeFieldType values).stats.statMax =
        some (jsMaxList ((values.filterMap parseFloatV).map JSNum.num)) ∧
      (analyzeFieldType values).stats.statAvg =
        some (jsDiv (.num ((values.filterMap parseFloatV).foldl (fun a b => ratAdd a b) 0))
          (.num ((values.filterMap parseFloatV).length : ℚ)))) := by
  by_cases hT : isTemporalField values = true
  · exact absurd (by simp [analyzeFieldType, hT]) ht
  · by_cases hQ : isQuantitativeField values = true
    · constructor
      · exact ⟨fun _ => hQ, fun _ => by simp [analyzeFieldType, hT, hQ]⟩
      · intro _
        refine ⟨?_, ?_, ?_⟩ <;> simp [analyzeFieldType, hT, hQ]
    · have hft2 : (analyzeFieldType values).ftype = "ordinal" ∨
          (analyzeFieldType values).ftype = "nominal" := by
        simp only [analyzeFieldType]
        rw [if_neg hT, if_neg hQ]
        split
        · exact Or.inl rfl
        · exact Or.inr rfl
      constructor
      · constructor
        · intro h
          rcases hft2 with h2 | h2 <;> rw [h] at h2 <;> exact absurd h2 (by decide)
        · intro hAll
          exact absurd hAll hQ
      · intro h
        rcases hft2 with h2 | h2 <;> rw [h] at h2 <;> exact absurd h2 (by decide)

/-- C3 (witness): the amended classification rule applied to a one-value
numeric column. -/
theorem c3_quantitative_first_five_amended_witness :
    (analyzeFieldType [JSValue.vNum (-1)]).ftype = "quantitative" :=
  (c3_quantitative_first_five_amended [JSValue.vNum (-1)] (by decide)).1.mpr (by decide)

/-- C5 (counterexample): 10001 records with no columns at all are reported
valid — the large-dataset branch returns before the zero-column check — so
"invalid exactly when ... zero detected columns" fails. -/
theorem c5_validator_counterexample :
    (validateDataForGraphicWalker (some c5big)).isValid = true ∧
    (analyzeDataStructure (some c5big)).fields.length = 0 := by
  have hlen : c5big.length = 10001 := by
    rw [show c5big = ([] : Record) :: List.replicate 10000 ([] : Record) from rfl,
      List.length_cons, List.length_replicate]
  constructor
  · simp only [validateDataForGraphicWalker]
    rw [if_neg (by omega), if_pos (by omega)]
  · rw [show c5big = ([] : Record) :: List.replicate 10000 ([] : Record) from rfl,
      analyzeDataStructure_fields_cons]
    rfl

/-- C5 (amended): the validator is invalid exactly for a non-array, an empty
array, or at most 10000 records with zero detected columns (the >10000 branch
precedes the zero-column check); when valid, its suggestion list is nonempty
exactly when the record count exceeds 10000 or exactly one column exists. -/
theorem c5_validator_amended (d : Option (List Record)) :
    ((validateDataForGraphicWalker d).isValid = false ↔
      d = none ∨ d = some [] ∨
        ∃ l, d = some l ∧ l.length ≤ 10000 ∧
          (analyzeDataStructure (some l)).fields.length = 0) ∧
    ((validateDataForGraphicWalker d).isValid = true →
      ((validateDataForGraphicWalker d).suggestions ≠ [] ↔
        ∃ l, d = some l ∧
          (10000 < l.length ∨ (analyzeDataStructure (some l)).fields.length = 1))) := by
  cases d with
  | none => simp [validateDataForGraphicWalker]
  | some l =>
    by_cases h0 : l.length = 0
    · have hl : l = [] := List.length_eq_zero.mp h0
      subst hl
      simp [validateDataForGraphicWalker]
    · by_cases h1 : 10000 < l.length
      · have hval : validateDataForGraphicWalker (some l) =
            ⟨true, "Large dataset detected",
              ["Consider filtering data for better performance",
               "GraphicWalker may be slow with large datasets"]⟩ := by
          simp only [validateDataForGraphicWalker]
          rw [if_neg h0, if_pos h1]
        rw [hval]
        constructor
        · refine iff_of_false (by simp) ?_
          rintro (h | h | ⟨l2, hl2, hle, hz⟩)
          · exact Option.noConfusion h
          · exact h0 (by rw [Option.some.inj h]; rfl)
          · obtain rfl : l = l2 := Option.some.inj hl2
            omega
        · intro _
          refine iff_of_true (by simp) ?_
          exact ⟨l, rfl, Or.inl h1⟩
      · by_cases h2 : (analyzeDataStructure (some l)).fields.length = 0
        · have hval : validateDataForGraphicWalker (some l) =
              ⟨false, "No fields detected in data",
                ["Ensure data objects have properties"]⟩ := by
            simp only [validateDataForGraphicWalker]
            rw [if_neg h0, if_neg h1, if_pos h2]
          rw [hval]
          constructor
          · refine iff_of_true rfl ?_
            exact Or.inr (Or.inr ⟨l, rfl, by omega, h2⟩)
          · intro hh
            exact absurd hh (by simp)
        · by_cases h3 : (analyzeDataStructure (some l)).fields.length = 1
          · have hval : validateDataForGraphicWalker (some l) =
                ⟨true, "Limited analysis possible with single field",
                  ["More fields would enable richer visualizations"]⟩ := by
              simp only [validateDataForGraphicWalker]
              rw [if_neg h0, if_neg h1, if_neg h2, if_pos h3]
            rw [hval]
            constructor
            · refine iff_of_false (by simp) ?_
              rintro (h | h | ⟨l2, hl2, hle, hz⟩)
              · exact Option.noConfusion h
              · exact h0 (by rw [Option.some.inj h]; rfl)
              · obtain rfl : l = l2 := Option.some.inj hl2
                exact h2 hz
            · intro _
              refine iff_of_true (by simp) ?_
              exact ⟨l, rfl, Or.inr h3⟩
          · have hval : validateDataForGraphicWalker (some l) =
                ⟨true, "Data is suitable for GraphicWalker", []⟩ := by
              simp only [validateDataForGraphicWalker]
              rw [if_neg h0, if_neg h1, if_neg h2, if_neg h3]
            rw [hval]
            constructor
            · refine iff_of_false (by simp) ?_
              rintro (h | h | ⟨l2, hl2, hle, hz⟩)
              · exact Option.noConfusion h
              · exact h0 (by rw [Option.some.inj h]; rfl)
              · obtain rfl : l = l2 := Option.some.inj hl2
                exact h2 hz
            · intro _
              refine iff_of_false (by simp) ?_
              rintro ⟨l2, hl2, hor⟩
              obtain rfl : l = l2 := Option.some.inj hl2
              rcases hor with hgt | heq
              · exact h1 hgt
              · exact h3 heq

/-- C5 (witness): the amended theorem applied to the missing input. -/
theorem c5_validator_amended_witness :
    (validateDataForGraphicWalker none).isValid = false :=
  (c5_validator_amended none).1.mpr (Or.inl rfl)

/-- C8 (counterexample): with 3 records of which 1 is stuck, the KPI's
on-time percentage is the rounded 66.7, not the exact (3-1)/3*100. -/
theorem c8_on_time_rounding_counterexample :
    (calculateTrafficKPIs c8data [] ["t0", "t1"]).totalShipments = 3 ∧
    (calculateTrafficKPIs c8data [] ["t0", "t1"]).delayedShipments = 1 ∧
    (calculateTrafficKPIs c8data [] ["t0", "t1"]).onTimePercentage = mkRat 667 10 ∧
    (calculateTrafficKPIs c8data [] ["t0", "t1"]).onTimePercentage ≠
      ((3 : ℚ) - 1) / 3 * 100 := by
  refine ⟨by decide, by decide, by decide, ?_⟩
  have h : (calculateTrafficKPIs c8data [] ["t0", "t1"]).onTimePercentage =
      mkRat 667 10 := by decide
  rw [h, Rat.mkRat_eq_divInt, Rat.divInt_eq_div]
  norm_num

/-- C8 (amended): the on-time percentage equals `(total - stuck) / total *
100` rounded to one decimal (`toFixed(1)`) for a nonempty dataset and is
exactly 100 for an empty one; the stuck count never exceeds the total, and
the percentage is always a well-defined rational between 0 and 100 (never
`NaN`, no division-by-zero). -/
theorem c8_on_time_percentage_amended (data : List Record)
    (laneFields timeFields : List String) :
    (calculateTrafficKPIs data laneFields timeFields).onTimePercentage =
      (if 0 < data.length then
        toFixed1 (((data.length : ℚ) -
            ((detectStuckShipments data [] timeFields).length : ℚ)) /
          (data.length : ℚ) * 100)
      else 100) ∧
    (data = [] → (calculateTrafficKPIs data laneFields timeFields).onTimePercentage = 100) ∧
    (detectStuckShipments data [] timeFields).length ≤ data.length ∧
    0 ≤ (calculateTrafficKPIs data laneFields timeFields).onTimePercentage ∧
    (calculateTrafficKPIs data laneFields timeFields).onTimePercentage ≤ 100 := by
  have hstuck := detectStuckShipments_length_le data [] timeFields
  have hw : (calculateTrafficKPIs data laneFields timeFields).onTimePercentage =
      (if 0 < data.length then
        toFixed1 (ratMul (ratDiv (ratSub ((data.length : ℚ))
            (((detectStuckShipments data [] timeFields).length : ℚ)))
          ((data.length : ℚ))) 100)
      else 100) := rfl
  have hmain : (calculateTrafficKPIs data laneFields timeFields).onTimePercentage =
      (if 0 < data.length then
        toFixed1 (((data.length : ℚ) -
            ((detectStuckShipments data [] timeFields).length : ℚ)) /
          (data.length : ℚ) * 100)
      else 100) := by
    rw [hw, ratSub_eq, ratDiv_eq, ratMul_eq]
  have hq0 : (0 : ℚ) ≤ ((data.length : ℚ) -
      ((detectStuckShipments data [] timeFields).length : ℚ)) /
      (data.length : ℚ) * 100 := by
    have hs : ((detectStuckShipments data [] timeFields).length : ℚ) ≤
        (data.length : ℚ) := by exact_mod_cast hstuck
    have hdnn : (0 : ℚ) ≤ (data.length : ℚ) := by positivity
    have := div_nonneg (by linarith :
      (0 : ℚ) ≤ (data.length : ℚ) - ((detectStuckShipments data [] timeFields).length : ℚ)) hdnn
    linarith
  refine ⟨hmain, ?_, hstuck, ?_, ?_⟩
  · intro h
    subst h
    rw [hmain]
    simp
  · rw [hmain]
    by_cases hl : 0 < data.length
    · rw [if_pos hl]
      exact toFixed1_nonneg _ hq0
    · rw [if_neg hl]
      norm_num
  · rw [hmain]
    by_cases hl : 0 < data.length
    · rw [if_pos hl]
      apply toFixed1_le_100
      have hl0 : (0 : ℚ) < (data.length : ℚ) := by exact_mod_cast hl
      have hs : ((detectStuckShipments data [] timeFields).length : ℚ) ≤
          (data.length : ℚ) := by exact_mod_cast hstuck
      have hd1 : ((data.length : ℚ) -
          ((detectStuckShipments data [] timeFields).length : ℚ)) /
          (data.length : ℚ) ≤ 1 := by
        rw [div_le_one hl0]
        have hs0 : (0 : ℚ) ≤ ((detectStuckShipments data [] timeFields).length : ℚ) := by
          positivity
        linarith
      have := mul_le_mul_of_nonneg_right hd1 (by norm_num : (0 : ℚ) ≤ 100)
      linarith
    · rw [if_neg hl]

/-- C8 (witness): the amended theorem applied to the empty dataset. -/
theorem c8_on_time_percentage_amended_witness :
    (calculateTrafficKPIs [] [] []).onTimePercentage = 100 :=
  (c8_on_time_percentage_amended [] [] []).2.1 rfl
